import Mathlib

/-!
Verification of the api-framework repository core: the class-registration
registry, the dependency container, the router handler pipeline, the
response normalisation, and the core HTTP driver adapter.

JavaScript values are embedded shallowly: symbols minted by the registry
become natural numbers drawn from a counter, JS Map objects become
insertion-ordered association lists (Map.set updates in place, keeping the
position of an existing key), classes are referred to by numeric class ids,
and host-runtime services (URLPattern matching, URL parsing, JSON.parse,
the @std/http eTag hash) are parameters of the definitions that call them.
-/

/-- JS Map.get: first (unique) entry for the key, if any. -/
def alistGet {α β : Type} [DecidableEq α] (k : α) : List (α × β) → Option β
  | [] => none
  | (k₀, v₀) :: rest => if k₀ = k then some v₀ else alistGet k rest

/-- JS Map.set and JS property assignment: update an existing key in place
(keeping its position), otherwise append the new entry at the end. -/
def alistSet {α β : Type} [DecidableEq α] (k : α) (v : β) : List (α × β) → List (α × β)
  | [] => [(k, v)]
  | (k₀, v₀) :: rest => if k₀ = k then (k, v) :: rest else (k₀, v₀) :: alistSet k v rest

theorem alistGet_set_self {α β : Type} [DecidableEq α] (k : α) (v : β) (l : List (α × β)) :
    alistGet k (alistSet k v l) = some v := by
  induction l with
  | nil => simp [alistGet, alistSet]
  | cons hd tl ih =>
    by_cases h : hd.1 = k
    · simp [alistSet, h, alistGet]
    · simp [alistSet, h, alistGet, ih]

theorem alistGet_set_ne {α β : Type} [DecidableEq α] (k k' : α) (v : β) (l : List (α × β))
    (h : k ≠ k') : alistGet k' (alistSet k v l) = alistGet k' l := by
  induction l with
  | nil => simp [alistGet, alistSet, h]
  | cons hd tl ih =>
    by_cases h₀ : hd.1 = k
    · have h₁ : ¬hd.1 = k' := by rw [h₀]; exact h
      simp [alistSet, h₀, alistGet, h, h₁]
    · have h' : ¬k' = k := fun hh => h hh.symm
      by_cases h₂ : hd.1 = k' <;> simp [alistSet, h₀, alistGet, h₂, h', ih]

/-! ## JSON values and JSON.stringify -/

/-- A JSON value as produced by JSON.parse and consumed by JSON.stringify. -/
inductive Jv where
  | nullv : Jv
  | boolv : Bool → Jv
  | num : Int → Jv
  | str : String → Jv
  | arr : List Jv → Jv
  | obj : List (String × Jv) → Jv
deriving Repr

/-- JSON string escaping as done by JSON.stringify: quote, backslash, the
named control escapes, and a \u00XX escape for other control characters. -/
def jsonEscapeChar (c : Char) : String :=
  if c = '"' then "\\\""
  else if c = '\\' then "\\\\"
  else if c = '\n' then "\\n"
  else if c = '\r' then "\\r"
  else if c = '\t' then "\\t"
  else if c = '\x08' then "\\b"
  else if c = '\x0c' then "\\f"
  else if c.toNat < 32 then
    "\\u00" ++ String.mk [hexDigit (c.toNat / 16), hexDigit (c.toNat % 16)]
  else String.mk [c]
where
  hexDigit (n : Nat) : Char :=
    if n < 10 then Char.ofNat (48 + n) else Char.ofNat (87 + n)

/-- A JSON string literal: the escaped characters wrapped in double quotes. -/
def jsonQuote (s : String) : String :=
  "\"" ++ String.join (s.data.map jsonEscapeChar) ++ "\""

mutual

/-- JSON.stringify on the embedded JSON values. -/
def Jv.stringify : Jv → String
  | .nullv => "null"
  | .boolv true => "true"
  | .boolv false => "false"
  | .num n => toString n
  | .str s => jsonQuote s
  | .arr xs => "[" ++ Jv.stringifyArr xs ++ "]"
  | .obj fs => "\x7b" ++ Jv.stringifyObj fs ++ "\x7d"

/-- Comma-separated serialisation of a JSON array body. -/
def Jv.stringifyArr : List Jv → String
  | [] => ""
  | [x] => Jv.stringify x
  | x :: y :: rest => Jv.stringify x ++ "," ++ Jv.stringifyArr (y :: rest)

/-- Comma-separated serialisation of the fields of a JSON object. -/
def Jv.stringifyObj : List (String × Jv) → String
  | [] => ""
  | [(k, v)] => jsonQuote k ++ ":" ++ Jv.stringify v
  | (k, v) :: f :: rest =>
    jsonQuote k ++ ":" ++ Jv.stringify v ++ "," ++ Jv.stringifyObj (f :: rest)

end

/-- Own enumerable properties of a JS value, as consulted by Object.assign:
the fields of an object, the index properties of an array or a string, and
nothing for the primitives. -/
def ownProps : Jv → List (String × Jv)
  | .obj fs => fs
  | .arr xs => (xs.enum.map fun p => (toString p.1, p.2))
  | .str s => (s.data.enum.map fun p => (toString p.1, Jv.str (String.mk [p.2])))
  | _ => []

/-! ## Registration registry (src/registration.ts)

Registration keys are JS symbols minted per registered class; the embedding
mints them from a counter. The key is stamped onto the class object itself
under a hidden property (Object.assign with a symbol key), modelled by the
stamps association list from class id to key. -/

/-- The class registration type from src/registration.ts. -/
inductive ClassRegistrationType where
  | injectable
  | objectType
  | inputType
deriving DecidableEq, Repr

/-- A class registration: the registration type together with the target
class (by class id). -/
structure ClassRegistration where
  type : ClassRegistrationType
  target : Nat
deriving DecidableEq, Repr

/-- The process-wide registry state: the key counter, the key-to-registration
map (insertion ordered) and the hidden per-class key stamps. -/
structure RegistryState where
  nextKey : Nat
  classRegistrations : List (Nat × ClassRegistration)
  stamps : List (Nat × Nat)
deriving Repr

/-- registerClass from src/registration.ts: mint a fresh key, stamp it onto
the class (overwriting any previous stamp) and store the registration under
the new key. Returns the key and the updated registry. -/
def registerClass (reg : ClassRegistration) (st : RegistryState) : Nat × RegistryState :=
  let key := st.nextKey
  (key,
    { nextKey := key + 1
      classRegistrations := alistSet key reg st.classRegistrations
      stamps := alistSet reg.target key st.stamps })

/-- maybeGetRegistrationKey from src/registration.ts: read the hidden key
stamp off the class, if present. -/
def maybeGetRegistrationKey (cid : Nat) (st : RegistryState) : Option Nat :=
  alistGet cid st.stamps

/-- getRegistrationKey from src/registration.ts: the stamped key, or a
RegistrationError naming the class when it was never registered. -/
def getRegistrationKey (cname : String) (cid : Nat) (st : RegistryState) : Except String Nat :=
  match maybeGetRegistrationKey cid st with
  | some key => .ok key
  | none => .error ("Cannot get class key: " ++ cname ++ " has not been registered")

/-- getClassRegistrationByKey from src/registration.ts: the registration
stored for the key, or a RegistrationError for an unknown key. -/
def getClassRegistrationByKey (key : Nat) (st : RegistryState) : Except String ClassRegistration :=
  match alistGet key st.classRegistrations with
  | some reg => .ok reg
  | none => .error ("Class is not registered for key: " ++ toString key)

/-! ## Route metadata registration (src/router.ts) -/

/-- The route metadata recorded by the HTTP route decorators. -/
structure RouteMetadata where
  method : String
  path : String
  controller : Nat
  methodName : String
  body : Option Nat
deriving DecidableEq, Repr

/-- registerRoute from src/router.ts: store the metadata under the route key
only when the key is not yet present (routes.set guarded by routes.has). -/
def registerRouteMeta (key : Nat) (metadata : RouteMetadata)
    (routes : List (Nat × RouteMetadata)) : List (Nat × RouteMetadata) :=
  if (alistGet key routes).isSome then routes else alistSet key metadata routes

/-- C5: registering a class stamps the minted key onto it, so
getRegistrationKey returns that key on every subsequent call (also after
registrations of other classes) until the class is registered again; a
second registerClass on the same class mints a distinct fresh key,
overwrites the stamp (getRegistrationKey now returns the new key, never the
old one), and leaves the first registration entry orphaned in the registry,
still retrievable via getClassRegistrationByKey under the old key. -/
theorem c5_registration_key (st : RegistryState) (ty ty₂ : ClassRegistrationType)
    (c : Nat) (nm : String) :
    getRegistrationKey nm c (registerClass ⟨ty, c⟩ st).2 =
      .ok (registerClass ⟨ty, c⟩ st).1 ∧
    (∀ reg₃ : ClassRegistration, reg₃.target ≠ c →
      getRegistrationKey nm c (registerClass reg₃ (registerClass ⟨ty, c⟩ st).2).2 =
        .ok (registerClass ⟨ty, c⟩ st).1) ∧
    (registerClass ⟨ty₂, c⟩ (registerClass ⟨ty, c⟩ st).2).1 ≠ (registerClass ⟨ty, c⟩ st).1 ∧
    getRegistrationKey nm c (registerClass ⟨ty₂, c⟩ (registerClass ⟨ty, c⟩ st).2).2 =
      .ok (registerClass ⟨ty₂, c⟩ (registerClass ⟨ty, c⟩ st).2).1 ∧
    getClassRegistrationByKey (registerClass ⟨ty, c⟩ st).1
      (registerClass ⟨ty₂, c⟩ (registerClass ⟨ty, c⟩ st).2).2 = .ok ⟨ty, c⟩ ∧
    getRegistrationKey nm c (registerClass ⟨ty₂, c⟩ (registerClass ⟨ty, c⟩ st).2).2 ≠
      .ok (registerClass ⟨ty, c⟩ st).1 := by
  refine ⟨?_, ?_, ?_, ?_, ?_, ?_⟩
  · simp [getRegistrationKey, maybeGetRegistrationKey, registerClass, alistGet_set_self]
  · intro reg₃ h
    simp [getRegistrationKey, maybeGetRegistrationKey, registerClass,
      alistGet_set_ne reg₃.target c _ _ h, alistGet_set_self]
  · simp [registerClass]
  · simp [getRegistrationKey, maybeGetRegistrationKey, registerClass, alistGet_set_self]
  · have hne : st.nextKey + 1 ≠ st.nextKey := by omega
    simp [getClassRegistrationByKey, registerClass,
      alistGet_set_ne (st.nextKey + 1) st.nextKey _ _ hne, alistGet_set_self]
  · simp [getRegistrationKey, maybeGetRegistrationKey, registerClass, alistGet_set_self]

/-- Witness for c5_registration_key: the empty registry, class id 7,
re-registered as an input type, with an unrelated class 8 in between. -/
theorem c5_registration_key_witness :
    getRegistrationKey "M" 7 (registerClass ⟨.objectType, 7⟩ ⟨0, [], []⟩).2 = .ok 0 ∧
    getRegistrationKey "M" 7
      (registerClass ⟨.injectable, 8⟩ (registerClass ⟨.objectType, 7⟩ ⟨0, [], []⟩).2).2 =
        .ok 0 := by
  have h := c5_registration_key ⟨0, [], []⟩ .objectType .inputType 7 "M"
  exact ⟨h.1, h.2.1 ⟨.injectable, 8⟩ (by decide)⟩

/-- C10: route-metadata registration is first-wins: a second registerRoute
call on an already-present key is a no-op (the state is unchanged, so
re-registering a key is equivalent to registering it once with the first
metadata, which is the stored one when the key was fresh); registerClass is
the opposite, the second registration wins for the class-to-key lookup. -/
theorem c10_route_metadata_first_wins (routes : List (Nat × RouteMetadata))
    (k : Nat) (m₁ m₂ : RouteMetadata) (st : RegistryState)
    (ty ty₂ : ClassRegistrationType) (c : Nat) :
    registerRouteMeta k m₂ (registerRouteMeta k m₁ routes) = registerRouteMeta k m₁ routes ∧
    (alistGet k routes = none →
      alistGet k (registerRouteMeta k m₂ (registerRouteMeta k m₁ routes)) = some m₁) ∧
    maybeGetRegistrationKey c (registerClass ⟨ty₂, c⟩ (registerClass ⟨ty, c⟩ st).2).2 =
      some (registerClass ⟨ty₂, c⟩ (registerClass ⟨ty, c⟩ st).2).1 := by
  refine ⟨?_, ?_, ?_⟩
  · by_cases h : (alistGet k routes).isSome
    · simp [registerRouteMeta, h]
    · simp only [registerRouteMeta, h, if_false]
      simp [alistGet_set_self]
  · intro h
    have h₁ : ¬(alistGet k routes).isSome = true := by simp [h]
    simp only [registerRouteMeta, h₁, if_false]
    simp [alistGet_set_self]
  · simp [maybeGetRegistrationKey, registerClass, alistGet_set_self]

/-- Witness for c10_route_metadata_first_wins: a fresh route key 3 with two
different metadata values. -/
theorem c10_route_metadata_first_wins_witness :
    alistGet 3 (registerRouteMeta 3 ⟨"POST", "/b", 0, "g", none⟩
      (registerRouteMeta 3 ⟨"GET", "/a", 0, "f", none⟩ [])) =
      some ⟨"GET", "/a", 0, "f", none⟩ := by
  have h := c10_route_metadata_first_wins [] 3 ⟨"GET", "/a", 0, "f", none⟩
    ⟨"POST", "/b", 0, "g", none⟩ ⟨0, [], []⟩ .injectable .injectable 0
  exact h.2.1 (by decide)

/-! ## HTTP status texts (@std/http/status STATUS_TEXT)

The table the framework consults for error titles and for recognising
numeric statusCode properties, mirrored from the standard status registry
used by the repository. -/

/-- STATUS_TEXT lookup: the standard reason phrase for a status code, or
none when the code is not a recognised status. -/
def statusText : Int → Option String
  | 100 => some "Continue"
  | 101 => some "Switching Protocols"
  | 102 => some "Processing"
  | 103 => some "Early Hints"
  | 200 => some "OK"
  | 201 => some "Created"
  | 202 => some "Accepted"
  | 203 => some "Non-Authoritative Information"
  | 204 => some "No Content"
  | 205 => some "Reset Content"
  | 206 => some "Partial Content"
  | 207 => some "Multi-Status"
  | 208 => some "Already Reported"
  | 226 => some "IM Used"
  | 300 => some "Multiple Choices"
  | 301 => some "Moved Permanently"
  | 302 => some "Found"
  | 303 => some "See Other"
  | 304 => some "Not Modified"
  | 305 => some "Use Proxy"
  | 307 => some "Temporary Redirect"
  | 308 => some "Permanent Redirect"
  | 400 => some "Bad Request"
  | 401 => some "Unauthorized"
  | 402 => some "Payment Required"
  | 403 => some "Forbidden"
  | 404 => some "Not Found"
  | 405 => some "Method Not Allowed"
  | 406 => some "Not Acceptable"
  | 407 => some "Proxy Authentication Required"
  | 408 => some "Request Timeout"
  | 409 => some "Conflict"
  | 410 => some "Gone"
  | 411 => some "Length Required"
  | 412 => some "Precondition Failed"
  | 413 => some "Content Too Large"
  | 414 => some "URI Too Long"
  | 415 => some "Unsupported Media Type"
  | 416 => some "Range Not Satisfiable"
  | 417 => some "Expectation Failed"
  | 418 => some "I\x27m a Teapot"
  | 421 => some "Misdirected Request"
  | 422 => some "Unprocessable Entity"
  | 423 => some "Locked"
  | 424 => some "Failed Dependency"
  | 425 => some "Too Early"
  | 426 => some "Upgrade Required"
  | 428 => some "Precondition Required"
  | 429 => some "Too Many Requests"
  | 431 => some "Request Header Fields Too Large"
  | 451 => some "Unavailable For Legal Reasons"
  | 500 => some "Internal Server Error"
  | 501 => some "Not Implemented"
  | 502 => some "Bad Gateway"
  | 503 => some "Service Unavailable"
  | 504 => some "Gateway Timeout"
  | 505 => some "HTTP Version Not Supported"
  | 506 => some "Variant Also Negotiates"
  | 507 => some "Insufficient Storage"
  | 508 => some "Loop Detected"
  | 510 => some "Not Extended"
  | 511 => some "Network Authentication Required"
  | _ => none

/-! ## Thrown values and error responses (src/response.ts) -/

/-- A JS value thrown by a handler or by request deserialisation: an Error
object (name, message, and an optional numeric statusCode property as
carried by HttpError), a plain object with an optional numeric statusCode,
or a string or number primitive. -/
inductive Thrown where
  | errVal (name message : String) (statusCode : Option Int)
  | objVal (statusCode : Option Int)
  | strVal (s : String)
  | numVal (n : Int)
deriving DecidableEq, Repr

/-- JS String(value): Error.prototype.toString for Error objects (name and
message joined by a colon, dropping an empty side), the object tag for plain
objects, and the primitive conversions. -/
def jsToString : Thrown → String
  | .errVal name msg _ =>
    if msg = "" then name else if name = "" then msg else name ++ ": " ++ msg
  | .objVal _ => "[object Object]"
  | .strVal s => s
  | .numVal n => toString n

/-- getErrorStatusCode from src/response.ts: the numeric statusCode property
of a thrown object when it is a recognised status code, otherwise 500. -/
def getErrorStatusCode : Thrown → Int
  | .errVal _ _ (some c) => if (statusText c).isSome then c else 500
  | .objVal (some c) => if (statusText c).isSome then c else 500
  | _ => 500

/-- The RFC-9457-style problem body built by buildErrorResponse. -/
structure ErrorResponse where
  status : Int
  title : String
  detail : String
deriving DecidableEq, Repr

/-- The ResponseInit passed alongside a response body. -/
structure RespInit where
  status : Option Int
  headers : List (String × String)

/-- The problem body as the JS object literal it is built from, field
insertion order status, title, detail. -/
def erJv (er : ErrorResponse) : Jv :=
  .obj [("status", .num er.status), ("title", .str er.title), ("detail", .str er.detail)]

/-- buildErrorResponse from src/response.ts: detail is the Error message
when truthy, else String(error); status comes from getErrorStatusCode;
title is the status text; the init carries the problem content type and the
status. -/
def buildErrorResponse (e : Thrown) : ErrorResponse × RespInit :=
  let detail :=
    match e with
    | .errVal _ msg _ => if msg = "" then jsToString e else msg
    | _ => jsToString e
  let status := getErrorStatusCode e
  let title := (statusText status).getD ""
  (⟨status, title, detail⟩,
    ⟨some status, [("content-type", "application/problem+json")]⟩)

/-! ## Response processing (src/response.ts) -/

/-- An HTTP response: status, headers and an optional body string. -/
structure Resp where
  status : Int
  headers : List (String × String)
  body : Option String
deriving Repr

/-- The non-Response values a handler can produce, as discriminated by the
typeof checks of serialiseResponseBody: a string, a JS object (including
arrays), the null value (whose typeof is also object, so JSON.stringify
turns it into the string null), and values of any other typeof, which leave
the body undefined. -/
inductive BodyPayload where
  | str (s : String)
  | obj (o : Jv)
  | jsNull
  | undef
deriving Repr

/-- A handler return value: either an already-built Response or a payload
to serialise. -/
inductive BodyValue where
  | resp (r : Resp)
  | payload (p : BodyPayload)
deriving Repr

/-- serialiseResponseBody from src/response.ts: strings pass through,
values of typeof object (including null) are JSON.stringify-ed, anything
else leaves the body undefined. -/
def serialiseResponseBody : BodyPayload → Option String
  | .str s => some s
  | .obj o => some o.stringify
  | .jsNull => some "null"
  | .undef => none

/-- ASCII lowercasing of a header name, as done by the Headers class. -/
def headerLower (s : String) : String :=
  String.mk (s.data.map fun c =>
    if 'A' ≤ c ∧ c ≤ 'Z' then Char.ofNat (c.toNat + 32) else c)

/-- New Headers(init): header names are lowercased; a repeated name appends
to the existing value with a comma separator. -/
def headerAppend (h : List (String × String)) (k v : String) : List (String × String) :=
  match alistGet k h with
  | some v₀ => alistSet k (v₀ ++ ", " ++ v) h
  | none => h ++ [(k, v)]

/-- createHeaders and createEtagHeader from src/response.ts: the init
headers, plus an etag header computed by the @std/http eTag content hash
(a host function, passed as the eTagFn parameter) whenever the serialised
body is a string and the hash is truthy. -/
def createHeaders (eTagFn : String → Option String) (bodyInit : Option String)
    (init : Option RespInit) : List (String × String) :=
  let hs := ((init.map RespInit.headers).getD []).foldl
    (fun h kv => headerAppend h (headerLower kv.1) kv.2) []
  match bodyInit with
  | some s =>
    match eTagFn s with
    | some t => if t = "" then hs else alistSet "etag" t hs
    | none => hs
  | none => hs

/-- processResponse from src/response.ts: a Response instance is returned
unchanged; otherwise the payload is serialised, the headers are built, and
a new Response is created with the init status (default 200). -/
def processResponse (eTagFn : String → Option String) (body : BodyValue)
    (init : Option RespInit) : Resp :=
  match body with
  | .resp r => r
  | .payload p =>
    let bodyInit := serialiseResponseBody p
    let headers := createHeaders eTagFn bodyInit init
    ⟨((init.map RespInit.status).getD none).getD 200, headers, bodyInit⟩

/-- C8: response normalisation: a Response instance is passed through
unchanged (the same object, no headers added, no init applied); a string
body is sent as-is; any other non-null object body is serialised as JSON;
and whenever the serialised body is a string for which the content hash is
truthy (the @std/http eTag hash always is), the response carries an etag
header equal to that hash of the serialised body. -/
theorem c8_response_normalisation (eTagFn : String → Option String) (r : Resp)
    (init : Option RespInit) (s : String) (o : Jv) :
    processResponse eTagFn (.resp r) init = r ∧
    (processResponse eTagFn (.payload (.str s)) init).body = some s ∧
    (processResponse eTagFn (.payload (.obj o)) init).body = some o.stringify ∧
    (∀ (p : BodyPayload) (s' t : String), serialiseResponseBody p = some s' →
      eTagFn s' = some t → t ≠ "" →
      alistGet "etag" (processResponse eTagFn (.payload p) init).headers = some t) := by
  refine ⟨rfl, rfl, rfl, ?_⟩
  intro p s' t hs he ht
  simp only [processResponse, createHeaders, hs, he]
  simp [ht, alistGet_set_self]

/-- Witness for c8_response_normalisation: a length-based content hash on
the string body hi. -/
theorem c8_response_normalisation_witness :
    alistGet "etag" (processResponse (fun s => some ("h" ++ toString s.length))
      (.payload (.str "hi")) none).headers = some "h2" := by
  have h := c8_response_normalisation (fun s => some ("h" ++ toString s.length))
    ⟨200, [], none⟩ none "hi" .nullv
  exact h.2.2.2 (.str "hi") "hi" "h2" rfl rfl (by decide)

/-! ## Request body deserialisation and the compiled route handler
(src/router.ts) -/

/-- An input-model class: its name and the fields a fresh instance (new
target()) starts with. -/
structure ClassModel where
  name : String
  defaults : List (String × Jv)

/-- An instantiated input model: the class it was constructed from and its
fields. -/
structure Inst where
  ofClass : String
  fields : List (String × Jv)

/-- Object.assign onto an instance: each own property of the source is
assigned in order, overwriting an existing field or adding a new one. -/
def assignProps (defaults : List (String × Jv)) (props : List (String × Jv)) :
    List (String × Jv) :=
  props.foldl (fun acc kv => alistSet kv.1 kv.2 acc) defaults

/-- An incoming HTTP request: method, url, and the body text returned by
request.text(). -/
structure HttpRequest where
  method : String
  url : String
  bodyText : String

/-- The path parameter groups produced by URLPattern matching. -/
def RouteParams : Type := List (String × Option String)

/-- deserialiseRequestBody from src/router.ts: nothing without a declared
body class or with an empty body text; otherwise the body is JSON.parse-d
(a host call, passed as the parse parameter, which can throw) and its own
properties are assigned onto a new instance of the declared class. -/
def deserialiseRequestBody (parse : String → Except Thrown Jv)
    (target : Option ClassModel) (req : HttpRequest) : Except Thrown (Option Inst) :=
  match target with
  | none => .ok none
  | some cls =>
    if req.bodyText = "" then .ok none
    else
      match parse req.bodyText with
      | .error e => .error e
      | .ok json => .ok (some ⟨cls.name, assignProps cls.defaults (ownProps json)⟩)

/-- The compiled route handler returned by buildRouteHandler in
src/router.ts: deserialise the body and run the bound method inside a
try/catch whose catch builds the problem response, then process the
response. The embedding is a total function into Resp, which is the
never-throws guarantee. -/
def runHandler (eTagFn : String → Option String) (parse : String → Except Thrown Jv)
    (bodyClass : Option ClassModel)
    (method : HttpRequest → RouteParams → Option Inst → Except Thrown BodyValue)
    (req : HttpRequest) (params : RouteParams) : Resp :=
  match deserialiseRequestBody parse bodyClass req with
  | .error e =>
    processResponse eTagFn (.payload (.obj (erJv (buildErrorResponse e).1)))
      (some (buildErrorResponse e).2)
  | .ok body =>
    match method req params body with
    | .error e =>
      processResponse eTagFn (.payload (.obj (erJv (buildErrorResponse e).1)))
        (some (buildErrorResponse e).2)
    | .ok result => processResponse eTagFn result none

/-- The detail string of a problem response as the code computes it: the
Error message when non-empty, otherwise the JS string conversion of the
thrown value. -/
def errDetail : Thrown → String
  | .errVal name msg sc => if msg = "" then jsToString (.errVal name msg sc) else msg
  | t => jsToString t

theorem buildErrorResponse_fst (t : Thrown) :
    (buildErrorResponse t).1 =
      ⟨getErrorStatusCode t, (statusText (getErrorStatusCode t)).getD "", errDetail t⟩ := by
  cases t <;> rfl

theorem buildErrorResponse_snd (t : Thrown) :
    (buildErrorResponse t).2 =
      ⟨some (getErrorStatusCode t), [("content-type", "application/problem+json")]⟩ := by
  cases t <;> rfl

theorem createHeaders_ct (f : String → Option String) (b : Option String) (st0 : Option Int) :
    alistGet "content-type"
      (createHeaders f b (some ⟨st0, [("content-type", "application/problem+json")]⟩)) =
      some "application/problem+json" := by
  unfold createHeaders
  cases b with
  | none => rfl
  | some s =>
    cases hf : f s with
    | none => simp only [hf]; rfl
    | some tag =>
      simp only [hf]
      by_cases h0 : tag = ""
      · subst h0; rfl
      · have hne : ("etag" : String) ≠ "content-type" := by decide
        simp only [h0, if_false]
        rw [alistGet_set_ne _ _ _ _ hne]
        rfl

theorem problem_response_obs (eTagFn : String → Option String) (t : Thrown) :
    (processResponse eTagFn (.payload (.obj (erJv (buildErrorResponse t).1)))
        (some (buildErrorResponse t).2)).status = getErrorStatusCode t ∧
    alistGet "content-type" (processResponse eTagFn
        (.payload (.obj (erJv (buildErrorResponse t).1)))
        (some (buildErrorResponse t).2)).headers = some "application/problem+json" ∧
    (processResponse eTagFn (.payload (.obj (erJv (buildErrorResponse t).1)))
        (some (buildErrorResponse t).2)).body =
      some (Jv.stringify (erJv ⟨getErrorStatusCode t,
        (statusText (getErrorStatusCode t)).getD "", errDetail t⟩)) := by
  refine ⟨?_, ?_, ?_⟩
  · simp [processResponse, buildErrorResponse]
  · simp only [processResponse]
    rw [buildErrorResponse_snd]
    exact createHeaders_ct eTagFn _ _
  · simp [processResponse, serialiseResponseBody, buildErrorResponse_fst]

/-- C3 (amended): every value thrown by the bound method or by request-body
deserialisation makes the compiled handler return (never throw: runHandler
is a total function into Resp) a problem response whose status is the
thrown value's recognised numeric statusCode or 500, whose content type is
application/problem+json, and whose JSON body carries that status, the
standard status text as title, and as detail the Error message when it is
non-empty, otherwise the JS string conversion of the thrown value. -/
theorem c3_error_response (eTagFn : String → Option String)
    (parse : String → Except Thrown Jv) (bodyClass : Option ClassModel)
    (method : HttpRequest → RouteParams → Option Inst → Except Thrown BodyValue)
    (req : HttpRequest) (params : RouteParams) (t : Thrown) (b : Option Inst) :
    (deserialiseRequestBody parse bodyClass req = .ok b →
      method req params b = .error t →
      (runHandler eTagFn parse bodyClass method req params).status = getErrorStatusCode t ∧
      alistGet "content-type"
        (runHandler eTagFn parse bodyClass method req params).headers =
          some "application/problem+json" ∧
      (runHandler eTagFn parse bodyClass method req params).body =
        some (Jv.stringify (erJv ⟨getErrorStatusCode t,
          (statusText (getErrorStatusCode t)).getD "", errDetail t⟩))) ∧
    (deserialiseRequestBody parse bodyClass req = .error t →
      (runHandler eTagFn parse bodyClass method req params).status = getErrorStatusCode t ∧
      alistGet "content-type"
        (runHandler eTagFn parse bodyClass method req params).headers =
          some "application/problem+json" ∧
      (runHandler eTagFn parse bodyClass method req params).body =
        some (Jv.stringify (erJv ⟨getErrorStatusCode t,
          (statusText (getErrorStatusCode t)).getD "", errDetail t⟩))) ∧
    (buildErrorResponse t).1 =
      ⟨getErrorStatusCode t, (statusText (getErrorStatusCode t)).getD "", errDetail t⟩ := by
  refine ⟨?_, ?_, buildErrorResponse_fst t⟩
  · intro hd hm
    have hobs := problem_response_obs eTagFn t
    simp only [runHandler, hd, hm]
    exact hobs
  · intro hd
    have hobs := problem_response_obs eTagFn t
    simp only [runHandler, hd]
    exact hobs

/-- Witness for c3_error_response: the spec scenario, a handler throwing
new Error with message kaboom yields a 500 problem response with detail
kaboom. -/
theorem c3_error_response_witness :
    (runHandler (fun _ => none) (fun _ => .ok .nullv) none
      (fun _ _ _ => .error (.errVal "Error" "kaboom" none)) ⟨"GET", "/x", ""⟩ []).status =
        500 ∧
    (runHandler (fun _ => none) (fun _ => .ok .nullv) none
      (fun _ _ _ => .error (.errVal "Error" "kaboom" none)) ⟨"GET", "/x", ""⟩ []).body =
      some "\x7b\"status\":500,\"title\":\"Internal Server Error\",\"detail\":\"kaboom\"\x7d" := by
  have h := (c3_error_response (fun _ => none) (fun _ => .ok .nullv) none
    (fun _ _ _ => .error (.errVal "Error" "kaboom" none)) ⟨"GET", "/x", ""⟩ []
    (.errVal "Error" "kaboom" none) none).1 rfl rfl
  exact ⟨h.1, h.2.2⟩

/-- C3 counterexample: a handler throwing new Error with an empty message
produces a problem response whose detail is the string Error (the JS string
conversion of the error), not the error's message, which is empty; the
claim that detail always equals the thrown error's message fails here. -/
theorem c3_error_detail_counterexample :
    (buildErrorResponse (.errVal "Error" "" none)).1.detail = "Error" ∧
    (runHandler (fun _ => none) (fun _ => .ok .nullv) none
      (fun _ _ _ => .error (.errVal "Error" "" none)) ⟨"GET", "/x", ""⟩ []).body =
      some "\x7b\"status\":500,\"title\":\"Internal Server Error\",\"detail\":\"Error\"\x7d" ∧
    ("Error" : String) ≠ "" := by
  refine ⟨rfl, rfl, by decide⟩

/-- C4: the compiled route handler's body argument: without a declared body
class it is undefined; with a declared class and an empty body text it is
undefined; with a declared class and a non-empty body text that JSON-parses,
it is a fresh instance of the declared class onto which the parsed body's
own properties are shallowly assigned, with no per-field validation — in
particular a parsed body with a name field of x yields an instance whose
name field is x whatever the instance's default fields were. -/
theorem c4_body_deserialisation (parse : String → Except Thrown Jv)
    (req : HttpRequest) (cls : ClassModel) (json : Jv) :
    deserialiseRequestBody parse none req = .ok none ∧
    (req.bodyText = "" → deserialiseRequestBody parse (some cls) req = .ok none) ∧
    (req.bodyText ≠ "" → parse req.bodyText = .ok json →
      deserialiseRequestBody parse (some cls) req =
        .ok (some ⟨cls.name, assignProps cls.defaults (ownProps json)⟩)) ∧
    alistGet "name" (assignProps cls.defaults (ownProps (.obj [("name", .str "x")]))) =
      some (.str "x") := by
  refine ⟨rfl, ?_, ?_, ?_⟩
  · intro h
    simp [deserialiseRequestBody, h]
  · intro h hp
    simp [deserialiseRequestBody, h, hp]
  · show alistGet "name" (alistSet "name" (Jv.str "x") cls.defaults) = some (.str "x")
    exact alistGet_set_self _ _ _

/-- Witness for c4_body_deserialisation: a POST body of a name-x JSON
object deserialised into a declared input class with no default fields. -/
theorem c4_body_deserialisation_witness :
    deserialiseRequestBody (fun _ => .ok (.obj [("name", .str "x")]))
      (some ⟨"CreateMessageInput", []⟩) ⟨"POST", "/m", "\x7b\"name\":\"x\"\x7d"⟩ =
      .ok (some ⟨"CreateMessageInput", [("name", .str "x")]⟩) := by
  have h := (c4_body_deserialisation (fun _ => .ok (.obj [("name", .str "x")]))
    ⟨"POST", "/m", "\x7b\"name\":\"x\"\x7d"⟩ ⟨"CreateMessageInput", []⟩
    (.obj [("name", .str "x")])).2.2.1 (by decide) rfl
  exact h

/-! ## Core driver adapter (src/drivers/core_adapter.ts) -/

/-- A controller route as registered with the driver: HTTP method, final
route path, and the compiled handler. -/
structure ControllerRoute where
  method : String
  path : String
  handler : HttpRequest → RouteParams → Resp

/-- The driver's two-level route table: path, then method, insertion
ordered at both levels. -/
def RouteTable : Type := List (String × List (String × ControllerRoute))

/-- Lookup of the route registered for a path and method. -/
def lookup2 (t : RouteTable) (p m : String) : Option ControllerRoute :=
  (alistGet p t).bind (alistGet m)

/-- CoreDriverAdapter.registerRoute: a DriverError when the exact
path-method pair already exists (thrown before any mutation, so a failing
call changes nothing), otherwise insert into the two-level map. -/
def driverRegisterRoute (t : RouteTable) (r : ControllerRoute) : Except String RouteTable :=
  match alistGet r.path t with
  | some methods =>
    match alistGet r.method methods with
    | some _ =>
      .error ("Route " ++ r.method ++ " " ++ r.path ++ " already registered")
    | none => .ok (alistSet r.path (alistSet r.method r methods) t)
  | none => .ok (alistSet r.path [(r.method, r)] t)

/-- Registration of a list of routes, one driver registerRoute call each,
aborting at the first error, as the loop in Application.listen does. -/
def registerAll (t : RouteTable) : List ControllerRoute → Except String RouteTable
  | [] => .ok t
  | r :: rest =>
    match driverRegisterRoute t r with
    | .error e => .error e
    | .ok t₂ => registerAll t₂ rest

/-- The driver state for the lifecycle embedding: the route table and
whether listen() has been invoked. The source CoreDriverAdapter keeps only
the routes map; the listening flag records history for the temporal claim. -/
structure DriverSt where
  routes : RouteTable
  listening : Bool

/-- The observable driver operations: registerRoute and listen(). -/
inductive DriverOp where
  | register (r : ControllerRoute)
  | listenStart

/-- One driver lifecycle step: registerRoute consults only the route table
(the source performs no state check), listen() starts listening on the same
live table. -/
def driverStep (st : DriverSt) : DriverOp → Except String DriverSt
  | .register r =>
    match driverRegisterRoute st.routes r with
    | .error e => .error e
    | .ok t => .ok ⟨t, st.listening⟩
  | .listenStart => .ok ⟨st.routes, true⟩

/-- A sequence of driver lifecycle steps. -/
def runOps : DriverSt → List DriverOp → Except String DriverSt
  | st, [] => .ok st
  | st, op :: rest =>
    match driverStep st op with
    | .error e => .error e
    | .ok st' => runOps st' rest

/-- Application.listen from src/application.ts, restricted to the driver
interaction: register every built controller route with the driver, then
and only then start the driver listening. -/
def appListen (rs : List ControllerRoute) : Except String DriverSt :=
  match registerAll [] rs with
  | .error e => .error e
  | .ok t => .ok ⟨t, true⟩

/-- The not-found problem response synthesised by
CoreDriverAdapter.notFoundResponse: a NotFoundError (statusCode 404) whose
message names the method and the URL pathname (extracted by the host URL
parser, the po parameter), run through buildErrorResponse and
processResponse. -/
def notFoundResponse (po : String → String) (eTagFn : String → Option String)
    (req : HttpRequest) : Resp :=
  let e := Thrown.errVal "NotFoundError"
    ("Route " ++ req.method ++ " " ++ po req.url ++ " not found") (some 404)
  processResponse eTagFn (.payload (.obj (erJv (buildErrorResponse e).1)))
    (some (buildErrorResponse e).2)

/-- CoreDriverAdapter.handler: walk the registered paths in insertion
order; on the first path whose URLPattern (the host matcher, the ep
parameter) matches the request URL, dispatch on the request method or
synthesise the not-found response; if no path matches, synthesise the
not-found response. -/
def coreHandler (ep : String → String → Option RouteParams) (po : String → String)
    (eTagFn : String → Option String) : RouteTable → HttpRequest → Resp
  | [], req => notFoundResponse po eTagFn req
  | (pathname, methods) :: rest, req =>
    match ep pathname req.url with
    | some params =>
      match alistGet req.method methods with
      | some route => route.handler req params
      | none => notFoundResponse po eTagFn req
    | none => coreHandler ep po eTagFn rest req

/-- The driver's per-request serving function: the handler closure reads
the current route table of the driver state. -/
def serveDriver (ep : String → String → Option RouteParams) (po : String → String)
    (eTagFn : String → Option String) (st : DriverSt) (req : HttpRequest) : Resp :=
  coreHandler ep po eTagFn st.routes req

/-- Modelled from the spec: registered paths are tried in insertion order
and the first path whose pattern matches the request URL wins, yielding
that path's method map and the match's path parameters. -/
def firstMatch (ep : String → String → Option RouteParams) :
    RouteTable → String → Option (List (String × ControllerRoute) × RouteParams)
  | [], _ => none
  | (pathname, methods) :: rest, url =>
    match ep pathname url with
    | some params => some (methods, params)
    | none => firstMatch ep rest url

/-- Modelled from the spec: the 404 problem body, a JSON object with status
404, title Not Found, and a detail naming the method and path. -/
def notFoundJson (m p : String) : String :=
  "\x7b\"status\":404,\"title\":\"Not Found\",\"detail\":" ++
    jsonQuote ("Route " ++ m ++ " " ++ p ++ " not found") ++ "\x7d"

theorem routeMsg_ne_empty (m p : String) :
    ("Route " ++ m ++ " " ++ p ++ " not found") ≠ "" := by
  intro h
  have hlen := congrArg String.length h
  simp only [String.length_append] at hlen
  have h1 : ("Route " : String).length = 6 := by decide
  have h2 : (" " : String).length = 1 := by decide
  have h3 : (" not found" : String).length = 10 := by decide
  have h4 : ("" : String).length = 0 := by decide
  rw [h1, h2, h3, h4] at hlen
  omega

theorem stringify_notFound (m p : String) :
    Jv.stringify (erJv ⟨404, "Not Found", "Route " ++ m ++ " " ++ p ++ " not found"⟩) =
      notFoundJson m p := by
  simp only [erJv, Jv.stringify, Jv.stringifyObj, notFoundJson, String.append_assoc]
  rfl

theorem notFound_obs (po : String → String) (eTagFn : String → Option String)
    (req : HttpRequest) :
    (notFoundResponse po eTagFn req).status = 404 ∧
    alistGet "content-type" (notFoundResponse po eTagFn req).headers =
      some "application/problem+json" ∧
    (notFoundResponse po eTagFn req).body = some (notFoundJson req.method (po req.url)) := by
  have hobs := problem_response_obs eTagFn (Thrown.errVal "NotFoundError"
    ("Route " ++ req.method ++ " " ++ po req.url ++ " not found") (some 404))
  refine ⟨?_, hobs.2.1, ?_⟩
  · exact hobs.1
  · simp only [notFoundResponse]
    rw [hobs.2.2, show errDetail (Thrown.errVal "NotFoundError"
        ("Route " ++ req.method ++ " " ++ po req.url ++ " not found") (some 404)) =
        "Route " ++ req.method ++ " " ++ po req.url ++ " not found" from by
      simp only [errDetail]
      rw [if_neg (routeMsg_ne_empty _ _)]]
    rw [show (getErrorStatusCode (Thrown.errVal "NotFoundError"
        ("Route " ++ req.method ++ " " ++ po req.url ++ " not found") (some 404))) =
        (404 : Int) from rfl]
    rw [show (statusText 404).getD "" = "Not Found" from rfl]
    rw [stringify_notFound req.method (po req.url)]

theorem coreHandler_eq (ep : String → String → Option RouteParams) (po : String → String)
    (eTagFn : String → Option String) (routes : RouteTable) (req : HttpRequest) :
    coreHandler ep po eTagFn routes req =
      (match firstMatch ep routes req.url with
       | none => notFoundResponse po eTagFn req
       | some (methods, params) =>
         match alistGet req.method methods with
         | some route => route.handler req params
         | none => notFoundResponse po eTagFn req) := by
  induction routes with
  | nil => rfl
  | cons hd tl ih =>
    obtain ⟨pathname, methods⟩ := hd
    simp only [coreHandler, firstMatch]
    cases hm : ep pathname req.url with
    | some params => rfl
    | none => exact ih

/-- C1: the core driver handler tries registered paths in insertion order,
the first matching path wins (the firstMatch function stating the spec
wording); a route for the request method on that path is invoked with the
match parameters; otherwise, and when no path matches, the response has
status 404, content type application/problem+json and the Not Found problem
body naming the request method and URL pathname, which at GET /v1/unknown
is exactly the spec's example body. -/
theorem c1_driver_dispatch (ep : String → String → Option RouteParams)
    (po : String → String) (eTagFn : String → Option String)
    (routes : RouteTable) (req : HttpRequest) :
    (firstMatch ep routes req.url = none →
      (coreHandler ep po eTagFn routes req).status = 404 ∧
      alistGet "content-type" (coreHandler ep po eTagFn routes req).headers =
        some "application/problem+json" ∧
      (coreHandler ep po eTagFn routes req).body =
        some (notFoundJson req.method (po req.url))) ∧
    (∀ methods params route, firstMatch ep routes req.url = some (methods, params) →
      alistGet req.method methods = some route →
      coreHandler ep po eTagFn routes req = route.handler req params) ∧
    (∀ methods params, firstMatch ep routes req.url = some (methods, params) →
      alistGet req.method methods = none →
      (coreHandler ep po eTagFn routes req).status = 404 ∧
      alistGet "content-type" (coreHandler ep po eTagFn routes req).headers =
        some "application/problem+json" ∧
      (coreHandler ep po eTagFn routes req).body =
        some (notFoundJson req.method (po req.url))) ∧
    notFoundJson "GET" "/v1/unknown" =
      "\x7b\"status\":404,\"title\":\"Not Found\",\"detail\":\"Route GET /v1/unknown not found\"\x7d" := by
  have heq := coreHandler_eq ep po eTagFn routes req
  refine ⟨?_, ?_, ?_, by rfl⟩
  · intro h
    rw [heq, h]
    exact notFound_obs po eTagFn req
  · intro methods params route h hm
    rw [heq, h]
    simp only [hm]
  · intro methods params h hm
    rw [heq, h]
    simp only [hm]
    exact notFound_obs po eTagFn req

/-- Witness for c1_driver_dispatch: an empty route table and a GET request
for /v1/unknown yield the spec's example 404 body. -/
theorem c1_driver_dispatch_witness :
    (coreHandler (fun _ _ => none) id (fun _ => none) []
      ⟨"GET", "/v1/unknown", ""⟩).status = 404 ∧
    (coreHandler (fun _ _ => none) id (fun _ => none) []
      ⟨"GET", "/v1/unknown", ""⟩).body =
      some "\x7b\"status\":404,\"title\":\"Not Found\",\"detail\":\"Route GET /v1/unknown not found\"\x7d" := by
  have h := (c1_driver_dispatch (fun _ _ => none) id (fun _ => none) []
    ⟨"GET", "/v1/unknown", ""⟩).1 rfl
  exact ⟨h.1, h.2.2⟩

theorem driverRegister_present (t : RouteTable) (r : ControllerRoute) (t' : RouteTable)
    (h : driverRegisterRoute t r = .ok t') : lookup2 t' r.path r.method = some r := by
  unfold driverRegisterRoute at h
  cases hp : alistGet r.path t with
  | some ms =>
    simp only [hp] at h
    cases hm : alistGet r.method ms with
    | some _ => simp only [hm] at h; cases h
    | none =>
      simp only [hm] at h
      cases h
      unfold lookup2
      rw [alistGet_set_self]
      simp only [Option.bind]
      exact alistGet_set_self _ _ _
  | none =>
    simp only [hp] at h
    cases h
    unfold lookup2
    rw [alistGet_set_self]
    simp [alistGet]

theorem driverRegister_preserves (t : RouteTable) (r : ControllerRoute) (t' : RouteTable)
    (p m : String) (x : ControllerRoute)
    (hl : lookup2 t p m = some x) (h : driverRegisterRoute t r = .ok t') :
    lookup2 t' p m = some x := by
  unfold driverRegisterRoute at h
  unfold lookup2 at hl ⊢
  by_cases hpp : r.path = p
  · subst hpp
    cases hp : alistGet r.path t with
    | none => rw [hp] at hl; cases hl
    | some ms =>
      simp only [hp] at h
      rw [hp] at hl
      simp only [Option.bind] at hl
      cases hm : alistGet r.method ms with
      | some _ => simp only [hm] at h; cases h
      | none =>
        simp only [hm] at h
        cases h
        rw [alistGet_set_self]
        simp only [Option.bind]
        have hmm : r.method ≠ m := by
          intro hh
          rw [hh] at hm
          rw [hm] at hl
          cases hl
        rw [alistGet_set_ne _ _ _ _ hmm]
        exact hl
  · cases hp : alistGet r.path t with
    | some ms =>
      simp only [hp] at h
      cases hm : alistGet r.method ms with
      | some _ => simp only [hm] at h; cases h
      | none =>
        simp only [hm] at h
        cases h
        rw [alistGet_set_ne _ _ _ _ hpp]
        exact hl
    | none =>
      simp only [hp] at h
      cases h
      rw [alistGet_set_ne _ _ _ _ hpp]
      exact hl

theorem driverRegister_dup (t : RouteTable) (r : ControllerRoute) (x : ControllerRoute)
    (h : lookup2 t r.path r.method = some x) :
    driverRegisterRoute t r =
      .error ("Route " ++ r.method ++ " " ++ r.path ++ " already registered") := by
  unfold lookup2 at h
  unfold driverRegisterRoute
  cases hp : alistGet r.path t with
  | none => rw [hp] at h; cases h
  | some ms =>
    rw [hp] at h
    simp only [Option.bind] at h
    simp only [hp]
    cases hm : alistGet r.method ms with
    | none => rw [hm] at h; cases h
    | some _ => simp only [hm]

theorem registerAll_error_of_present (rs : List ControllerRoute) :
    ∀ (t : RouteTable) (p m : String) (x : ControllerRoute), lookup2 t p m = some x →
    (∃ r ∈ rs, r.path = p ∧ r.method = m) → ∃ e, registerAll t rs = .error e := by
  induction rs with
  | nil =>
    intro t p m x _ hex
    obtain ⟨r, hmem, _⟩ := hex
    cases hmem
  | cons y ys ih =>
    intro t p m x hl hex
    obtain ⟨r, hmem, hp, hm⟩ := hex
    cases hreg : driverRegisterRoute t y with
    | error e => exact ⟨e, by simp [registerAll, hreg]⟩
    | ok t₂ =>
      by_cases hy : y.path = p ∧ y.method = m
      · exfalso
        have hdup := driverRegister_dup t y x (by rw [hy.1, hy.2]; exact hl)
        rw [hdup] at hreg
        cases hreg
      · have hl₂ : lookup2 t₂ p m = some x := driverRegister_preserves t y t₂ p m x hl hreg
        have hmem₂ : r ∈ ys := by
          cases List.mem_cons.mp hmem with
          | inl h₀ =>
            exfalso
            apply hy
            rw [← h₀]
            exact ⟨hp, hm⟩
          | inr h₀ => exact h₀
        obtain ⟨e, he⟩ := ih t₂ p m x hl₂ ⟨r, hmem₂, hp, hm⟩
        exact ⟨e, by simp [registerAll, hreg, he]⟩

theorem registerAll_error_of_dup (l₁ : List ControllerRoute) :
    ∀ (t : RouteTable) (r₁ : ControllerRoute) (l₂ : List ControllerRoute)
      (r₂ : ControllerRoute) (l₃ : List ControllerRoute),
    r₁.method = r₂.method → r₁.path = r₂.path →
    ∃ e, registerAll t (l₁ ++ r₁ :: (l₂ ++ r₂ :: l₃)) = .error e := by
  induction l₁ with
  | nil =>
    intro t r₁ l₂ r₂ l₃ hm hp
    cases hreg : driverRegisterRoute t r₁ with
    | error e => exact ⟨e, by simp [registerAll, hreg]⟩
    | ok t₂ =>
      have hpres := driverRegister_present t r₁ t₂ hreg
      obtain ⟨e, he⟩ := registerAll_error_of_present (l₂ ++ r₂ :: l₃) t₂ r₁.path r₁.method r₁
        hpres ⟨r₂, by simp, hp.symm, hm.symm⟩
      exact ⟨e, by simp [registerAll, hreg, he]⟩
  | cons y ys ih =>
    intro t r₁ l₂ r₂ l₃ hm hp
    cases hreg : driverRegisterRoute t y with
    | error e => exact ⟨e, by simp [registerAll, hreg]⟩
    | ok t₂ =>
      obtain ⟨e, he⟩ := ih t₂ r₁ l₂ r₂ l₃ hm hp
      exact ⟨e, by simp [registerAll, hreg, he]⟩

/-- C2: registering a route whose method and final path are both already
present makes the driver throw a DriverError with the already-registered
message, before any mutation (the failing call produces no new table); and
since Application.listen registers every built controller route with the
driver before invoking the driver's listen, any collision anywhere in the
registered route list aborts startup with an error, never reaching a
listening server state. -/
theorem c2_route_collision (t : RouteTable) (r x : ControllerRoute)
    (l₁ l₂ l₃ : List ControllerRoute) (r₁ r₂ : ControllerRoute) :
    (lookup2 t r.path r.method = some x →
      driverRegisterRoute t r =
        .error ("Route " ++ r.method ++ " " ++ r.path ++ " already registered")) ∧
    (r₁.method = r₂.method → r₁.path = r₂.path →
      ∃ e, appListen (l₁ ++ r₁ :: (l₂ ++ r₂ :: l₃)) = .error e) := by
  constructor
  · intro h
    exact driverRegister_dup t r x h
  · intro hm hp
    obtain ⟨e, he⟩ := registerAll_error_of_dup l₁ [] r₁ l₂ r₂ l₃ hm hp
    exact ⟨e, by simp [appListen, he]⟩

/-- A concrete registered route used by the c2_route_collision witness. -/
def c2Route : ControllerRoute :=
  ⟨"GET", "/v1/messages", fun _ _ => ⟨200, [], none⟩⟩

/-- Witness for c2_route_collision: a table already holding GET
/v1/messages rejects a second registration, and an application route list
with the duplicate aborts startup. -/
theorem c2_route_collision_witness :
    driverRegisterRoute [("/v1/messages", [("GET", c2Route)])] c2Route =
      .error "Route GET /v1/messages already registered" ∧
    ∃ e, appListen [c2Route, c2Route] = .error e := by
  have h := c2_route_collision [("/v1/messages", [("GET", c2Route)])] c2Route c2Route
    [] [] [] c2Route c2Route
  exact ⟨h.1 rfl, h.2 rfl rfl⟩

/-- A concrete route registered after listen() in the c9 counterexample. -/
def c9Route : ControllerRoute :=
  ⟨"GET", "/a", fun _ _ => ⟨200, [], some "A"⟩⟩

/-- C9 counterexample: the CoreDriverAdapter enforces no Idle-only rule:
after listen() has been invoked, a registerRoute call still inserts into
the live route table the request handler consults, and the route is served
(status 200 with the route's body, not 404), refuting the claim that a
registerRoute call after listen() never adds a route to the serving table. -/
theorem c9_state_machine_counterexample :
    (runOps ⟨[], false⟩ [.listenStart, .register c9Route]).map
        (fun st => (st.listening,
          (serveDriver (fun p url => if p = url then some ([] : RouteParams) else none)
            id (fun _ => none) st ⟨"GET", "/a", ""⟩).status,
          (serveDriver (fun p url => if p = url then some ([] : RouteParams) else none)
            id (fun _ => none) st ⟨"GET", "/a", ""⟩).body)) =
      .ok (true, 200, some "A") ∧ (200 : Int) ≠ 404 := by
  exact ⟨rfl, by decide⟩

/-- C9 (amended): the CoreDriverAdapter implements no state machine:
registerRoute performs no listening-state check (its route-table outcome is
independent of whether listen() has run), and a successfully registered
route is always visible in the table the request handler serves from; the
Idle-only discipline holds only by orchestration, because Application.listen
performs all registerRoute calls before invoking the driver's listen. -/
theorem c9_no_idle_guard (t : RouteTable) (r : ControllerRoute) (b₁ b₂ : Bool)
    (t' : RouteTable) (rs : List ControllerRoute) (st : DriverSt) :
    (driverStep ⟨t, b₁⟩ (.register r)).map DriverSt.routes =
      (driverStep ⟨t, b₂⟩ (.register r)).map DriverSt.routes ∧
    (driverRegisterRoute t r = .ok t' → lookup2 t' r.path r.method = some r) ∧
    (appListen rs = .ok st → registerAll [] rs = .ok st.routes ∧ st.listening = true) := by
  refine ⟨?_, driverRegister_present t r t', ?_⟩
  · simp only [driverStep]
    cases h : driverRegisterRoute t r <;> rfl
  · intro h
    unfold appListen at h
    cases hr : registerAll [] rs with
    | error e => rw [hr] at h; cases h
    | ok tb =>
      rw [hr] at h
      cases h
      exact ⟨rfl, rfl⟩

/-- Witness for c9_no_idle_guard: registering GET /a into the empty table
with the listening flag already true inserts the route, and it is found in
the serving table; on an application route list with one route, startup
reaches the listening state with that table. -/
theorem c9_no_idle_guard_witness :
    lookup2 [("/a", [("GET", c9Route)])] c9Route.path c9Route.method = some c9Route ∧
    registerAll [] [c9Route] = .ok [("/a", [("GET", c9Route)])] := by
  have h := c9_no_idle_guard [] c9Route true false [("/a", [("GET", c9Route)])]
    [c9Route] ⟨[("/a", [("GET", c9Route)])], true⟩
  exact ⟨h.2.1 rfl, (h.2.2 rfl).1⟩

/-! ## Dependency container (src/container.ts)

Container.build walks the Injectable registrations in registry insertion
order, asks each class for its registration definition (the register()
method), resolves each dependency descriptor to the referenced class's
registration key, and binds the class as a singleton under its own key.
Instantiation is delegated to the bound inversify container and happens
lazily on first resolution. -/

/-- A dependency descriptor from an InjectableRegistration: an optional
class reference (by class id), mirroring the optional class property. -/
structure DepReg where
  cls : Option Nat
deriving DecidableEq, Repr

/-- A class definition of the embedded world: its id, its name, and the
dependency list its register() method returns, or none when the class has
no register() method. -/
structure ClassDef where
  cid : Nat
  name : String
  registerFn : Option (List DepReg)
deriving DecidableEq, Repr

/-- The classes that exist in the embedded JS program. -/
structure ClassWorld where
  classes : List ClassDef
deriving DecidableEq, Repr

/-- The name of a class by id (a class reference always exists in JS; an
unknown id behaves like an unregistered class). -/
def className (w : ClassWorld) (cid : Nat) : String :=
  ((w.classes.find? (fun c => c.cid = cid)).map ClassDef.name).getD ""

/-- The dependency list returned by the register() method of a class, when
that method exists. -/
def registerFnOf (w : ClassWorld) (cid : Nat) : Option (List DepReg) :=
  ((w.classes.find? (fun c => c.cid = cid)).map ClassDef.registerFn).getD none

/-- The two error kinds surfaced by Container.build: ContainerError for an
unsupported dependency descriptor, RegistrationError from
getRegistrationDefinition and getRegistrationKey. -/
inductive BuildErr where
  | containerError (msg : String)
  | registrationError (msg : String)
deriving DecidableEq, Repr

/-- getRegistrationDefinition from src/registration.ts: the dependency list
of the register() method, or a RegistrationError naming the class when no
register function is defined on its prototype. -/
def getRegistrationDefinition (w : ClassWorld) (cid : Nat) : Except BuildErr (List DepReg) :=
  match registerFnOf w cid with
  | some deps => .ok deps
  | none => .error (.registrationError
      ("No registration function register() defined for injectable: " ++ className w cid))

/-- The singleton binding recorded by Container registerSingleton: the
bound class and its constructor dependency keys in descriptor order. -/
structure DIBinding where
  target : Nat
  depKeys : List Nat
deriving DecidableEq, Repr

/-- The paramKeys map of Container.build: each descriptor with a class
reference resolves to that class's registration key (a RegistrationError if
the class carries no stamp); a descriptor without one aborts with the
positional ContainerError. The keyDesc argument is the description of the
key being registered, used in the error message. -/
def resolveParamKeys (w : ClassWorld) (st : RegistryState) (keyDesc : String) :
    List DepReg → Nat → Except BuildErr (List Nat)
  | [], _ => .ok []
  | d :: rest, idx =>
    match d.cls with
    | some cid =>
      match getRegistrationKey (className w cid) cid st with
      | .error e => .error (.registrationError e)
      | .ok k =>
        match resolveParamKeys w st keyDesc rest (idx + 1) with
        | .error e => .error e
        | .ok ks => .ok (k :: ks)
    | none => .error (.containerError
        ("Unable to register " ++ keyDesc ++
          ": unsupported parameter definition at position " ++ toString idx))

/-- Processing of one Injectable registration inside Container.build:
fetch the registration definition, resolve the descriptor keys, and record
the singleton binding. -/
def processRegistration (w : ClassWorld) (st : RegistryState)
    (entry : Nat × ClassRegistration) : Except BuildErr DIBinding :=
  match getRegistrationDefinition w entry.2.target with
  | .error e => .error e
  | .ok deps =>
    match resolveParamKeys w st (className w entry.2.target) deps 0 with
    | .error e => .error e
    | .ok ks => .ok ⟨entry.2.target, ks⟩

/-- The Injectable registrations of the registry in insertion order, as
getClassRegistrations filters them. -/
def injectableRegs (st : RegistryState) : List (Nat × ClassRegistration) :=
  st.classRegistrations.filter (fun e => e.2.type = ClassRegistrationType.injectable)

/-- The loop body of Container.build over the remaining registrations,
accumulating the singleton bindings and aborting at the first error. -/
def buildGo (w : ClassWorld) (st : RegistryState) :
    List (Nat × ClassRegistration) → List (Nat × DIBinding) →
    Except BuildErr (List (Nat × DIBinding))
  | [], acc => .ok acc
  | e :: rest, acc =>
    match processRegistration w st e with
    | .error err => .error err
    | .ok b => buildGo w st rest (acc ++ [(e.1, b)])

/-- Container.build from src/container.ts: process every Injectable
registration in registry insertion order; any failure aborts the whole
build. -/
def containerBuild (w : ClassWorld) (st : RegistryState) :
    Except BuildErr (List (Nat × DIBinding)) :=
  buildGo w st (injectableRegs st) []

theorem buildGo_ok_all (w : ClassWorld) (st : RegistryState) :
    ∀ (l : List (Nat × ClassRegistration)) (acc bs : List (Nat × DIBinding)),
    buildGo w st l acc = .ok bs →
    ∀ e ∈ l, ∃ b, processRegistration w st e = .ok b := by
  intro l
  induction l with
  | nil =>
    intro acc bs _ e he
    cases he
  | cons y ys ih =>
    intro acc bs h e he
    unfold buildGo at h
    cases hp : processRegistration w st y with
    | error err => rw [hp] at h; cases h
    | ok b =>
      rw [hp] at h
      cases List.mem_cons.mp he with
      | inl h₀ => exact ⟨b, h₀ ▸ hp⟩
      | inr h₀ => exact ih _ bs h e h₀

theorem resolveParamKeys_bad_at (w : ClassWorld) (st : RegistryState) (keyDesc : String)
    (d : DepReg) (post : List DepReg) (hd : d.cls = none) :
    ∀ (pre : List DepReg) (idx : Nat),
    (∀ d' ∈ pre, ∃ cid k, d'.cls = some cid ∧ maybeGetRegistrationKey cid st = some k) →
    resolveParamKeys w st keyDesc (pre ++ d :: post) idx =
      .error (.containerError ("Unable to register " ++ keyDesc ++
        ": unsupported parameter definition at position " ++ toString (idx + pre.length))) := by
  intro pre
  induction pre with
  | nil =>
    intro idx _
    simp [resolveParamKeys, hd]
  | cons y ys ih =>
    intro idx hres
    obtain ⟨cid, k, hcls, hkey⟩ := hres y (by simp)
    have hrest : ∀ d' ∈ ys, ∃ cid k, d'.cls = some cid ∧
        maybeGetRegistrationKey cid st = some k := by
      intro d' hmem
      exact hres d' (by simp [hmem])
    have hkey' : getRegistrationKey (className w cid) cid st = .ok k := by
      unfold getRegistrationKey
      rw [hkey]
    simp only [List.cons_append, resolveParamKeys, hcls, hkey']
    simp only [List.append_eq]
    rw [ih (idx + 1) hrest]
    have harith : idx + 1 + ys.length = idx + (ys.length + 1) := by omega
    simp [harith]

/-- C7: Container.build is all-or-nothing over the Injectable registrations
in registry insertion order: a dependency descriptor without a class
reference at zero-based position N (all earlier descriptors resolvable)
makes the processing of its injectable abort with the positional
ContainerError message; an injectable class without a register() method
aborts with the distinct RegistrationError naming the class; and whenever
the whole build returns successfully, every Injectable registration was
processed successfully, so no partial build can complete. -/
theorem c7_build_all_or_nothing (w : ClassWorld) (st : RegistryState)
    (key : Nat) (reg : ClassRegistration)
    (pre : List DepReg) (d : DepReg) (post : List DepReg)
    (bs : List (Nat × DIBinding)) :
    (registerFnOf w reg.target = none →
      processRegistration w st (key, reg) = .error (.registrationError
        ("No registration function register() defined for injectable: " ++
          className w reg.target))) ∧
    (registerFnOf w reg.target = some (pre ++ d :: post) →
      d.cls = none →
      (∀ d' ∈ pre, ∃ cid k, d'.cls = some cid ∧
        maybeGetRegistrationKey cid st = some k) →
      processRegistration w st (key, reg) = .error (.containerError
        ("Unable to register " ++ className w reg.target ++
          ": unsupported parameter definition at position " ++ toString pre.length))) ∧
    (containerBuild w st = .ok bs →
      ∀ e ∈ injectableRegs st, ∃ b, processRegistration w st e = .ok b) := by
  refine ⟨?_, ?_, ?_⟩
  · intro h
    unfold processRegistration getRegistrationDefinition
    rw [h]
  · intro hfn hd hres
    have hbad := resolveParamKeys_bad_at w st (className w reg.target) d post hd pre 0 hres
    simp only [Nat.zero_add] at hbad
    unfold processRegistration getRegistrationDefinition
    rw [hfn]
    simp [hbad]
  · intro h
    exact buildGo_ok_all w st (injectableRegs st) [] bs h

/-- Witness for c7_build_all_or_nothing: a world with a class 1 lacking a
register() method, a class 2 whose first dependency descriptor carries no
class reference, and a class 3 with no dependencies, each probed through
processRegistration, and a successful build over a registry holding only
class 3. -/
theorem c7_build_all_or_nothing_witness :
    processRegistration ⟨[⟨1, "Bad", none⟩, ⟨2, "Odd", some [⟨none⟩]⟩, ⟨3, "Ok", some []⟩]⟩
      ⟨1, [(0, ⟨.injectable, 3⟩)], [(3, 0)]⟩ (9, ⟨.injectable, 1⟩) =
      .error (.registrationError
        "No registration function register() defined for injectable: Bad") ∧
    processRegistration ⟨[⟨1, "Bad", none⟩, ⟨2, "Odd", some [⟨none⟩]⟩, ⟨3, "Ok", some []⟩]⟩
      ⟨1, [(0, ⟨.injectable, 3⟩)], [(3, 0)]⟩ (9, ⟨.injectable, 2⟩) =
      .error (.containerError
        "Unable to register Odd: unsupported parameter definition at position 0") ∧
    (∀ e ∈ injectableRegs ⟨1, [(0, ⟨.injectable, 3⟩)], [(3, 0)]⟩,
      ∃ b, processRegistration
        ⟨[⟨1, "Bad", none⟩, ⟨2, "Odd", some [⟨none⟩]⟩, ⟨3, "Ok", some []⟩]⟩
        ⟨1, [(0, ⟨.injectable, 3⟩)], [(3, 0)]⟩ e = .ok b) := by
  have h := c7_build_all_or_nothing
    ⟨[⟨1, "Bad", none⟩, ⟨2, "Odd", some [⟨none⟩]⟩, ⟨3, "Ok", some []⟩]⟩
    ⟨1, [(0, ⟨.injectable, 3⟩)], [(3, 0)]⟩ 9 ⟨.injectable, 1⟩ [] ⟨none⟩ []
    [(0, ⟨3, []⟩)]
  have h₂ := c7_build_all_or_nothing
    ⟨[⟨1, "Bad", none⟩, ⟨2, "Odd", some [⟨none⟩]⟩, ⟨3, "Ok", some []⟩]⟩
    ⟨1, [(0, ⟨.injectable, 3⟩)], [(3, 0)]⟩ 9 ⟨.injectable, 2⟩ [] ⟨none⟩ []
    [(0, ⟨3, []⟩)]
  refine ⟨h.1 rfl, ?_, h.2.2 rfl⟩
  have hmid := h₂.2.1 rfl rfl (by intro d' hmem; cases hmem)
  exact hmid

/-- An instantiated singleton: its instance id, the registration key it was
created for, and the instance ids injected into its constructor. -/
structure DIInstance where
  instId : Nat
  ofKey : Nat
  depInsts : List Nat
deriving DecidableEq, Repr

/-- The resolution state of the bound container: the singleton cache from
registration key to instance id, the created instances, the next instance
id, and the keys in order of instantiation. -/
structure ResolveState where
  cache : List (Nat × Nat)
  instances : List DIInstance
  nextInst : Nat
  order : List Nat
deriving DecidableEq, Repr

/-- Modelled from the spec: singleton resolution as performed by the bound
inversify container on Container.setupClass, over a work list of
registration keys resolved sequentially — a cached key returns its existing
instance; otherwise every constructor dependency key is resolved first (in
descriptor order, each itself a singleton resolution), then the class is
instantiated exactly once and cached. The fuel bounds the nesting depth of
uncached resolutions; a dependency cycle exhausts it (the acknowledged
unbounded-recursion gap of the container). -/
def resolveMany (bindings : List (Nat × DIBinding)) :
    Nat → List Nat → ResolveState → Option (List Nat × ResolveState)
  | _, [], rs => some ([], rs)
  | 0, _ :: _, _ => none
  | fuel + 1, key :: rest, rs =>
    match alistGet key rs.cache with
    | some i =>
      match resolveMany bindings fuel rest rs with
      | none => none
      | some (is, rs₂) => some (i :: is, rs₂)
    | none =>
      match alistGet key bindings with
      | none => none
      | some b =>
        match resolveMany bindings fuel b.depKeys rs with
        | none => none
        | some (depIds, rs₁) =>
          match resolveMany bindings fuel rest
            { cache := alistSet key rs₁.nextInst rs₁.cache
              instances := rs₁.instances ++ [⟨rs₁.nextInst, key, depIds⟩]
              nextInst := rs₁.nextInst + 1
              order := rs₁.order ++ [key] } with
          | none => none
          | some (is, rs₃) => some (rs₁.nextInst :: is, rs₃)

/-- Resolution of a single registration key: the container get call. -/
def resolveKey (bindings : List (Nat × DIBinding)) (fuel : Nat) (key : Nat)
    (rs : ResolveState) : Option (Nat × ResolveState) :=
  match resolveMany bindings fuel [key] rs with
  | some (i :: _, rs₁) => some (i, rs₁)
  | _ => none

/-- Container.setupClass from src/container.ts: look up the class's
registration key and force the container to resolve it now. -/
def setupClassModel (bindings : List (Nat × DIBinding)) (st : RegistryState)
    (cid : Nat) (fuel : Nat) (rs : ResolveState) : Option ResolveState :=
  match maybeGetRegistrationKey cid st with
  | some key => (resolveKey bindings fuel key rs).map Prod.snd
  | none => none

/-- The world of the dependency-chain scenario: A (cid 1) depends on B
(cid 2), B depends on C (cid 3), C has no dependencies, and D (cid 4) also
depends on C. -/
def chainWorld : ClassWorld :=
  ⟨[⟨1, "A", some [⟨some 2⟩]⟩, ⟨2, "B", some [⟨some 3⟩]⟩,
    ⟨3, "C", some []⟩, ⟨4, "D", some [⟨some 3⟩]⟩]⟩

/-- The registry after the decorators register A, B, C and D in turn:
keys 0, 1, 2, 3. -/
def chainRegistryState : RegistryState :=
  (registerClass ⟨.injectable, 4⟩
    (registerClass ⟨.injectable, 3⟩
      (registerClass ⟨.injectable, 2⟩
        (registerClass ⟨.injectable, 1⟩ ⟨0, [], []⟩).2).2).2).2

/-- The singleton bindings Container.build records for the chain scenario. -/
def chainBindings : List (Nat × DIBinding) :=
  [(0, ⟨1, [1]⟩), (1, ⟨2, [2]⟩), (2, ⟨3, []⟩), (3, ⟨4, [2]⟩)]

/-- The resolution state after setupClass(A) and then setupClass(D) on the
built chain container. -/
def chainRun : Option ResolveState :=
  (setupClassModel chainBindings chainRegistryState 1 10 ⟨[], [], 0, []⟩).bind
    (setupClassModel chainBindings chainRegistryState 4 10)

/-- C6: on the built container of the chain A depends on B depends on C
(with D also depending on C), setupClass(A) instantiates C, then B, then A
(keys 2, 1, 0 in that order); a later setupClass(D) creates only D, so
every registered class is instantiated at most once (the instantiation
order 2, 1, 0, 3 has no duplicates), and both B and D receive the same
single C instance (instance id 0) in their constructors. -/
theorem c6_dependency_chain :
    containerBuild chainWorld chainRegistryState = .ok chainBindings ∧
    chainRun.map ResolveState.order = some [2, 1, 0, 3] ∧
    ([2, 1, 0, 3] : List Nat).Nodup ∧
    chainRun.map ResolveState.instances =
      some [⟨0, 2, []⟩, ⟨1, 1, [0]⟩, ⟨2, 0, [1]⟩, ⟨3, 3, [0]⟩] := by
  refine ⟨by rfl, by rfl, by decide, by rfl⟩
